import Mathlib

/-!
Verification of the claims about `story_mcp_server.py` (character lookup,
filename sanitization, JWT-shape validation, story save/read, and the
User-Agent classifier).  Python strings are modelled as Lean `String`
(lists of unicode scalar values); `str.lower` is modelled with the ASCII
`Char.toLower`, which agrees with Python on every ASCII input (the only
inputs the keyword tables and examples exercise).  Machine I/O (the file
system, the wall clock, the HTTP header map) is passed explicitly as
function arguments.
-/

set_option maxRecDepth 4096

namespace StoryServer

/-! Basic list/string helpers mirroring the Python string primitives used
by the source. -/

/-- Whether the list `p` is an initial segment of `s` (used to model the
scanning done by Python's `in` operator). -/
def isPreOf : List Char → List Char → Bool
  | [], _ => true
  | _ :: _, [] => false
  | c :: cs, d :: ds => c == d && isPreOf cs ds

/-- Whether `p` occurs contiguously anywhere inside `s`; models Python's
`p in s` for strings. -/
def hasSubList (p : List Char) : List Char → Bool
  | [] => p.isEmpty
  | c :: rest => isPreOf p (c :: rest) || hasSubList p rest

/-- Models Python's `pat in s` substring test. -/
def strHas (s pat : String) : Bool := hasSubList pat.data s.data

/-- Models Python's `s.split(sep)` for a one-character separator
(`''.split(sep) == ['']`, empty chunks kept). -/
def splitChar (sep : Char) : List Char → List (List Char)
  | [] => [[]]
  | c :: rest =>
    match splitChar sep rest with
    | [] => [[]]
    | grp :: gs => if c == sep then [] :: grp :: gs else (c :: grp) :: gs

/-- `s.split(sep)` at the `String` level. -/
def splitCharS (sep : Char) (s : String) : List String :=
  (splitChar sep s.data).map String.mk

/-- Models Python `str.lower` (ASCII letters only; see the file comment). -/
def lowerStr (s : String) : String := String.mk (s.data.map Char.toLower)

/-- Python slice `s[:n]`. -/
def takeS (n : Nat) (s : String) : String := String.mk (s.data.take n)

/-- Python slice `s[-n:]` for `n ≤ len(s)`. -/
def lastS (n : Nat) (s : String) : String :=
  String.mk (s.data.drop (s.data.length - n))

theorem strData_append (a b : String) : (a ++ b).data = a.data ++ b.data := rfl

theorem strExt {a b : String} (h : a.data = b.data) : a = b := by
  cases a; cases b; exact congrArg String.mk h

theorem isPreOf_iff {p s : List Char} : isPreOf p s = true ↔ ∃ t, s = p ++ t := by
  induction p generalizing s with
  | nil => simp [isPreOf]
  | cons c cs ih =>
    cases s with
    | nil => simp [isPreOf]
    | cons d ds =>
      simp only [isPreOf, Bool.and_eq_true, beq_iff_eq, ih, List.cons_append]
      constructor
      · rintro ⟨rfl, t, rfl⟩; exact ⟨t, rfl⟩
      · rintro ⟨t, h⟩; cases h; exact ⟨rfl, t, rfl⟩

theorem hasSubList_iff {p s : List Char} :
    hasSubList p s = true ↔ ∃ a b, s = a ++ p ++ b := by
  induction s with
  | nil =>
    simp only [hasSubList, List.isEmpty_iff]
    constructor
    · rintro rfl; exact ⟨[], [], rfl⟩
    · rintro ⟨a, b, h⟩
      rcases List.append_eq_nil.1 h.symm with ⟨h1, h2⟩
      exact (List.append_eq_nil.1 h1).2
  | cons c rest ih =>
    simp only [hasSubList, Bool.or_eq_true, isPreOf_iff, ih]
    constructor
    · rintro (⟨t, h⟩ | ⟨a, b, h⟩)
      · exact ⟨[], t, by simp [h]⟩
      · exact ⟨c :: a, b, by simp [h]⟩
    · rintro ⟨a, b, h⟩
      cases a with
      | nil => exact Or.inl ⟨b, by simpa using h⟩
      | cons a0 as =>
        simp only [List.cons_append, List.cons.injEq] at h
        exact Or.inr ⟨as, b, h.2⟩

/-- Convenience: a string assembled as `x ++ y ++ z` contains `y`. -/
theorem strHas_of_parts (x y z s : String) (hs : s = x ++ y ++ z) :
    strHas s y = true := by
  subst hs
  exact hasSubList_iff.mpr ⟨x.data, z.data, by simp [strData_append]⟩

/-! Filename sanitization: `sanitize_filename` from the source, lines
274-280. -/

/-- `sanitize_filename` (source lines 274-280):
`title.replace(' ', '_').lower()`, then keep the first four `_`-separated
chunks when more than three underscores are present, then cut to 30
characters, then append `.md`. -/
def sanitize_filename (title : String) : String :=
  let filename := lowerStr (String.mk (title.data.map (fun c => if c == ' ' then '_' else c)))
  let f1 := if filename.data.count '_' > 3 then
      String.mk (List.intercalate ['_'] ((splitChar '_' filename.data).take 4))
    else filename
  let f2 := if f1.data.length > 30 then String.mk (f1.data.take 30) else f1
  f2 ++ ".md"

/-- Modelled from the spec wording of claim C2, step by step: replace every
space by an underscore, lowercase, truncate to the first four
underscore-separated tokens when the underscore count exceeds 3, then
hard-truncate to 30 characters when still longer, then append `.md`. -/
def sanitizeFilenameClaim (title : String) : String :=
  let replaced := String.mk (title.data.map (fun c => if c == ' ' then '_' else c))
  let lowered := lowerStr replaced
  let wordCut := if lowered.data.count '_' > 3 then
      String.mk (List.intercalate ['_'] ((splitChar '_' lowered.data).take 4))
    else lowered
  let lenCut := if wordCut.data.length > 30 then String.mk (wordCut.data.take 30) else wordCut
  lenCut ++ ".md"

/-- C2: `sanitize_filename` performs space-to-underscore replacement,
lowercasing, word-count truncation (first, when more than three
underscores), then 30-character truncation, then appends `.md`; in
particular the two examples from the spec hold. -/
theorem c2_sanitize_filename_spec :
    (∀ title : String, sanitize_filename title = sanitizeFilenameClaim title)
    ∧ sanitize_filename "My Great Story" = "my_great_story.md"
    ∧ sanitize_filename "One Two Three Four Five" = "one_two_three_four.md" := by
  refine ⟨fun title => rfl, by decide, by decide⟩

/-! Bearer-token structural validation: `validate_and_truncate_jwt` from
the source, lines 283-332.  The library calls it makes
(`base64.urlsafe_b64decode`, and `json.loads` applied to *bytes*, which
first decodes them via `json.detect_encoding` with the `surrogatepass`
error handler) are modelled below; the validator only distinguishes which
*exception class* those calls raise, because its inner `except` clause
catches exactly `binascii.Error` and `JSONDecodeError` while everything
else falls through to the generic outer handler. -/

/-- Value of one standard-base64 alphabet character. -/
def b64Val (c : Char) : Option Nat :=
  if 'A' ≤ c ∧ c ≤ 'Z' then some (c.toNat - 65)
  else if 'a' ≤ c ∧ c ≤ 'z' then some (c.toNat - 97 + 26)
  else if '0' ≤ c ∧ c ≤ '9' then some (c.toNat - 48 + 52)
  else if c = '+' then some 62
  else if c = '/' then some 63
  else none

/-- The decoding loop of `binascii.a2b_base64` in its default non-strict
mode, with the CPython state: quad position `qp`, leftover bits `lc`, the
running pad count `pads` (reset by every data character) and the output
accumulator.  Characters outside the alphabet are ignored; a `=` at quad
position ≥ 2 counts towards padding and, once the quad is completed by
padding, decoding stops successfully, ignoring the remaining input; a `=`
at quad position 0 or 1 is ignored; bytes are emitted eagerly as the quad
fills.  Input that ends mid-quad raises `binascii.Error` ("number of data
characters cannot be 1 more than a multiple of 4" at position 1,
"Incorrect padding" at positions 2-3). -/
def a2bLoop : Nat → Nat → Nat → List Nat → List Char → Option (List Nat)
  | qp, _, _, acc, [] => if qp == 0 then some acc.reverse else none
  | qp, lc, pads, acc, c :: rest =>
    if c == '=' then
      if qp ≥ 2 then
        if qp + (pads + 1) ≥ 4 then some acc.reverse
        else a2bLoop qp lc (pads + 1) acc rest
      else a2bLoop qp lc pads acc rest
    else
      match b64Val c with
      | none => a2bLoop qp lc pads acc rest
      | some v =>
        match qp with
        | 0 => a2bLoop 1 v 0 acc rest
        | 1 => a2bLoop 2 (v % 16) 0 ((lc * 4 + v / 16) :: acc) rest
        | 2 => a2bLoop 3 (v % 4) 0 ((lc * 16 + v / 4) :: acc) rest
        | _ => a2bLoop 0 0 0 ((lc * 64 + v) :: acc) rest

/-- `binascii.a2b_base64` (non-strict): `none` stands for
`binascii.Error`. -/
def a2bBase64 (cs : List Char) : Option (List Nat) := a2bLoop 0 0 0 [] cs

/-- Stand-in for a surrogate code point produced by the `surrogatepass`
error handler: a Lean `Char` cannot hold U+D800-U+DFFF, so U+FFFD is used.
This is verdict-preserving for the validator, which only ever compares
the ASCII member keys `iss`/`sub` and classifies values by shape: like a
real lone surrogate, the stand-in is not JSON whitespace, not structural,
and not the start of any value, and inside a string literal it is just an
ordinary character. -/
def surrogateChar : Char := Char.ofNat 0xFFFD

/-- UTF-8 decoding as `bytes.decode('utf-8', 'surrogatepass')` performs
it: continuation bytes checked, overlong forms and values above U+10FFFF
rejected; three-byte encodings of surrogate code points — which the
`surrogatepass` handler accepts — decode to `surrogateChar`. -/
def utf8Decode : List Nat → Option (List Char)
  | [] => some []
  | b :: rest =>
    if b < 0x80 then (utf8Decode rest).map (fun cs => Char.ofNat b :: cs)
    else if b < 0xC2 then none
    else if b < 0xE0 then
      match rest with
      | c1 :: rest2 =>
        if 0x80 ≤ c1 && c1 < 0xC0 then
          (utf8Decode rest2).map (fun cs => Char.ofNat ((b - 0xC0) * 64 + (c1 - 0x80)) :: cs)
        else none
      | [] => none
    else if b < 0xF0 then
      match rest with
      | c1 :: c2 :: rest3 =>
        if (0x80 ≤ c1 && c1 < 0xC0) && (0x80 ≤ c2 && c2 < 0xC0)
            && (b != 0xE0 || 0xA0 ≤ c1) then
          let code := (b - 0xE0) * 4096 + (c1 - 0x80) * 64 + (c2 - 0x80)
          (utf8Decode rest3).map (fun cs =>
            (if 0xD800 ≤ code ∧ code ≤ 0xDFFF then surrogateChar else Char.ofNat code) :: cs)
        else none
      | _ => none
    else if b < 0xF5 then
      match rest with
      | c1 :: c2 :: c3 :: rest4 =>
        if (0x80 ≤ c1 && c1 < 0xC0) && (0x80 ≤ c2 && c2 < 0xC0) && (0x80 ≤ c3 && c3 < 0xC0)
            && (b != 0xF0 || 0x90 ≤ c1) && (b != 0xF4 || c1 < 0x90) then
          (utf8Decode rest4).map (fun cs =>
            Char.ofNat ((b - 0xF0) * 262144 + (c1 - 0x80) * 4096 + (c2 - 0x80) * 64 + (c3 - 0x80)) :: cs)
        else none
      | _ => none
    else none

/-- UTF-16 decoding (`le` selects byte order) with `surrogatepass`:
surrogate pairs combine, lone surrogates decode to `surrogateChar`, an
odd trailing byte raises `UnicodeDecodeError`.  (Fuelled recursion; every
step consumes at least two bytes, so the fuel supplied by `utf16Decode`
never runs out.) -/
def utf16Loop (le : Bool) : Nat → List Nat → Option (List Char)
  | 0, _ => none
  | _ + 1, [] => some []
  | _ + 1, [_] => none
  | fuel + 1, b0 :: b1 :: rest =>
    let u := if le then b0 + b1 * 256 else b0 * 256 + b1
    if 0xD800 ≤ u ∧ u ≤ 0xDBFF then
      match rest with
      | c0 :: c1 :: rest2 =>
        let u2 := if le then c0 + c1 * 256 else c0 * 256 + c1
        if 0xDC00 ≤ u2 ∧ u2 ≤ 0xDFFF then
          (utf16Loop le fuel rest2).map (fun cs =>
            Char.ofNat (0x10000 + (u - 0xD800) * 1024 + (u2 - 0xDC00)) :: cs)
        else (utf16Loop le fuel rest).map (fun cs => surrogateChar :: cs)
      | _ => (utf16Loop le fuel rest).map (fun cs => surrogateChar :: cs)
    else if 0xDC00 ≤ u ∧ u ≤ 0xDFFF then
      (utf16Loop le fuel rest).map (fun cs => surrogateChar :: cs)
    else (utf16Loop le fuel rest).map (fun cs => Char.ofNat u :: cs)

/-- `bytes.decode('utf-16-le' or 'utf-16-be', 'surrogatepass')`. -/
def utf16Decode (le : Bool) (b : List Nat) : Option (List Char) :=
  utf16Loop le (b.length + 1) b

/-- UTF-32 decoding (`le` selects byte order) with `surrogatepass`:
values above U+10FFFF or a truncated final group raise
`UnicodeDecodeError`, lone surrogates decode to `surrogateChar`. -/
def utf32Decode (le : Bool) : List Nat → Option (List Char)
  | [] => some []
  | b0 :: b1 :: b2 :: b3 :: rest =>
    let u := if le then b0 + b1 * 256 + b2 * 65536 + b3 * 16777216
             else b3 + b2 * 256 + b1 * 65536 + b0 * 16777216
    if u > 0x10FFFF then none
    else if 0xD800 ≤ u ∧ u ≤ 0xDFFF then
      (utf32Decode le rest).map (fun cs => surrogateChar :: cs)
    else (utf32Decode le rest).map (fun cs => Char.ofNat u :: cs)
  | _ => none

/-- The encoding `json.detect_encoding` selects; the flag records whether
the codec consumes a byte-order mark (the `utf-16`/`utf-32`/`utf-8-sig`
codecs do, the endianness-specific ones do not). -/
inductive JsonEnc where
  | u8
  | u8sig
  | u16be (bom : Bool)
  | u16le (bom : Bool)
  | u32be (bom : Bool)
  | u32le (bom : Bool)

/-- `json.detect_encoding`: the four UTF-32/UTF-16 BOM prefixes and the
UTF-8 BOM, checked in that order, then the NUL-byte-pattern heuristics
for BOM-less UTF-16/32, defaulting to UTF-8. -/
def detectEncoding : List Nat → JsonEnc
  | 0x00 :: 0x00 :: 0xFE :: 0xFF :: _ => .u32be true
  | 0xFF :: 0xFE :: 0x00 :: 0x00 :: _ => .u32le true
  | 0xFE :: 0xFF :: _ => .u16be true
  | 0xFF :: 0xFE :: _ => .u16le true
  | 0xEF :: 0xBB :: 0xBF :: _ => .u8sig
  | b0 :: b1 :: b2 :: b3 :: _ =>
    if b0 == 0 then (if b1 != 0 then .u16be false else .u32be false)
    else if b1 == 0 then (if b2 != 0 || b3 != 0 then .u16le false else .u32le false)
    else .u8
  | [b0, b1] =>
    if b0 == 0 then .u16be false
    else if b1 == 0 then .u16le false
    else .u8
  | _ => .u8

/-- What `json.loads` does to a `bytes` argument before parsing:
`b.decode(detect_encoding(b), 'surrogatepass')`.  `none` stands for
`UnicodeDecodeError`. -/
def decodeJsonBytes (b : List Nat) : Option (List Char) :=
  match detectEncoding b with
  | .u8 => utf8Decode b
  | .u8sig =>
    match b with
    | 0xEF :: 0xBB :: 0xBF :: rest => utf8Decode rest
    | _ => utf8Decode b
  | .u16be bom => utf16Decode false (if bom then b.drop 2 else b)
  | .u16le bom => utf16Decode true (if bom then b.drop 2 else b)
  | .u32be bom => utf32Decode false (if bom then b.drop 4 else b)
  | .u32le bom => utf32Decode true (if bom then b.drop 4 else b)

/-- JSON values as produced by `json.loads`.  Numbers are kept as their
source lexeme: the validator never uses a numeric magnitude, only whether
the value is an object / string / array. -/
inductive JVal where
  | jnull
  | jtrue
  | jfalse
  | jnum (lexeme : String)
  | jstr (s : String)
  | jarr (elems : List JVal)
  | jobj (members : List (String × JVal))

/-- JSON whitespace accepted by `json.loads`. -/
def jsonWs (c : Char) : Bool := c == ' ' || c == '\t' || c == '\n' || c == '\r'

def skipWs (cs : List Char) : List Char := cs.dropWhile jsonWs

def hexVal (c : Char) : Option Nat :=
  if '0' ≤ c ∧ c ≤ '9' then some (c.toNat - 48)
  else if 'a' ≤ c ∧ c ≤ 'f' then some (c.toNat - 97 + 10)
  else if 'A' ≤ c ∧ c ≤ 'F' then some (c.toNat - 65 + 10)
  else none

/-- Body of a JSON string after the opening quote, returning the decoded
characters and the input after the closing quote.  Escapes as in strict
`json.loads`; a `\uXXXX` surrogate pair combines, a lone surrogate is
modelled by U+FFFD (the validator never inspects string contents except
the ASCII keys `iss`/`sub`). -/
def parseStrBody : Nat → List Char → Option (List Char × List Char)
  | 0, _ => none
  | _ + 1, [] => none
  | fuel + 1, c :: rest =>
    if c == '"' then some ([], rest)
    else if c == '\\' then
      match rest with
      | [] => none
      | e :: rest2 =>
        if e == '"' then (parseStrBody fuel rest2).map (fun r => ('"' :: r.1, r.2))
        else if e == '\\' then (parseStrBody fuel rest2).map (fun r => ('\\' :: r.1, r.2))
        else if e == '/' then (parseStrBody fuel rest2).map (fun r => ('/' :: r.1, r.2))
        else if e == 'b' then (parseStrBody fuel rest2).map (fun r => (Char.ofNat 8 :: r.1, r.2))
        else if e == 'f' then (parseStrBody fuel rest2).map (fun r => (Char.ofNat 12 :: r.1, r.2))
        else if e == 'n' then (parseStrBody fuel rest2).map (fun r => ('\n' :: r.1, r.2))
        else if e == 'r' then (parseStrBody fuel rest2).map (fun r => ('\r' :: r.1, r.2))
        else if e == 't' then (parseStrBody fuel rest2).map (fun r => ('\t' :: r.1, r.2))
        else if e == 'u' then
          match rest2 with
          | h1 :: h2 :: h3 :: h4 :: rest3 =>
            match hexVal h1, hexVal h2, hexVal h3, hexVal h4 with
            | some v1, some v2, some v3, some v4 =>
              let code := v1 * 4096 + v2 * 256 + v3 * 16 + v4
              if 0xD800 ≤ code ∧ code ≤ 0xDBFF then
                -- high surrogate: try to combine with a following \uDC00-\uDFFF
                match rest3 with
                | '\\' :: 'u' :: g1 :: g2 :: g3 :: g4 :: rest4 =>
                  match hexVal g1, hexVal g2, hexVal g3, hexVal g4 with
                  | some w1, some w2, some w3, some w4 =>
                    let code2 := w1 * 4096 + w2 * 256 + w3 * 16 + w4
                    if 0xDC00 ≤ code2 ∧ code2 ≤ 0xDFFF then
                      (parseStrBody fuel rest4).map (fun r =>
                        (Char.ofNat (0x10000 + (code - 0xD800) * 1024 + (code2 - 0xDC00)) :: r.1, r.2))
                    else (parseStrBody fuel rest3).map (fun r => (Char.ofNat 0xFFFD :: r.1, r.2))
                  | _, _, _, _ => (parseStrBody fuel rest3).map (fun r => (Char.ofNat 0xFFFD :: r.1, r.2))
                | _ => (parseStrBody fuel rest3).map (fun r => (Char.ofNat 0xFFFD :: r.1, r.2))
              else if 0xDC00 ≤ code ∧ code ≤ 0xDFFF then
                (parseStrBody fuel rest3).map (fun r => (Char.ofNat 0xFFFD :: r.1, r.2))
              else (parseStrBody fuel rest3).map (fun r => (Char.ofNat code :: r.1, r.2))
            | _, _, _, _ => none
          | _ => none
        else none
    else if c.toNat < 0x20 then none
    else (parseStrBody fuel rest).map (fun r => (c :: r.1, r.2))

/-- One JSON number lexeme: `-?(0|[1-9][0-9]*)(\.[0-9]+)?([eE][+-]?[0-9]+)?`. -/
def parseNum (cs : List Char) : Option (List Char × List Char) :=
  let (sign, cs1) := match cs with
    | '-' :: t => (['-'], t)
    | _ => ([], cs)
  match cs1 with
  | [] => none
  | d :: _ =>
    if !d.isDigit then none
    else
      let (intPart, cs2) :=
        if d == '0' then ([d], cs1.tail)
        else (cs1.takeWhile Char.isDigit, cs1.dropWhile Char.isDigit)
      let (fracPart, cs3) :=
        match cs2 with
        | '.' :: t =>
          let ds := t.takeWhile Char.isDigit
          if ds.isEmpty then ([], cs2) else ('.' :: ds, t.dropWhile Char.isDigit)
        | _ => ([], cs2)
      -- a '.' not followed by digits makes the whole literal malformed in json
      match cs2, fracPart with
      | '.' :: _, [] => none
      | _, _ =>
        let (expPart, cs4) :=
          match cs3 with
          | e :: t =>
            if e == 'e' || e == 'E' then
              let (sgn, t2) := match t with
                | '+' :: u => (['+'], u)
                | '-' :: u => (['-'], u)
                | _ => ([], t)
              let ds := t2.takeWhile Char.isDigit
              if ds.isEmpty then ([], cs3)
              else (e :: (sgn ++ ds), t2.dropWhile Char.isDigit)
            else ([], cs3)
          | [] => ([], cs3)
        some (sign ++ intPart ++ fracPart ++ expPart, cs4)

mutual

/-- One JSON value (fuelled recursive-descent, mirroring the grammar
`json.loads` accepts, including the Python extensions `NaN`, `Infinity`
and `-Infinity`). -/
def parseVal : Nat → List Char → Option (JVal × List Char)
  | 0, _ => none
  | _ + 1, [] => none
  | fuel + 1, c :: rest =>
    if c == 'n' then
      match rest with
      | 'u' :: 'l' :: 'l' :: t => some (.jnull, t)
      | _ => none
    else if c == 't' then
      match rest with
      | 'r' :: 'u' :: 'e' :: t => some (.jtrue, t)
      | _ => none
    else if c == 'f' then
      match rest with
      | 'a' :: 'l' :: 's' :: 'e' :: t => some (.jfalse, t)
      | _ => none
    else if c == 'N' then
      match rest with
      | 'a' :: 'N' :: t => some (.jnum "NaN", t)
      | _ => none
    else if c == 'I' then
      match rest with
      | 'n' :: 'f' :: 'i' :: 'n' :: 'i' :: 't' :: 'y' :: t => some (.jnum "Infinity", t)
      | _ => none
    else if c == '-' then
      match rest with
      | 'I' :: 'n' :: 'f' :: 'i' :: 'n' :: 'i' :: 't' :: 'y' :: t => some (.jnum "-Infinity", t)
      | _ =>
        match parseNum (c :: rest) with
        | some (lx, t) => some (.jnum (String.mk lx), t)
        | none => none
    else if c.isDigit then
      match parseNum (c :: rest) with
      | some (lx, t) => some (.jnum (String.mk lx), t)
      | none => none
    else if c == '"' then
      match parseStrBody (rest.length + 1) rest with
      | some (s, t) => some (.jstr (String.mk s), t)
      | none => none
    else if c == '[' then
      match skipWs rest with
      | ']' :: t => some (.jarr [], t)
      | other =>
        match parseElems fuel other with
        | some (vs, t) => some (.jarr vs, t)
        | none => none
    else if c == '{' then
      match skipWs rest with
      | '}' :: t => some (.jobj [], t)
      | other =>
        match parseMembers fuel other with
        | some (ms, t) => some (.jobj ms, t)
        | none => none
    else none

/-- Comma-separated JSON values up to the closing `]`. -/
def parseElems : Nat → List Char → Option (List JVal × List Char)
  | 0, _ => none
  | fuel + 1, cs =>
    match parseVal fuel cs with
    | none => none
    | some (v, rest) =>
      match skipWs rest with
      | ',' :: t =>
        match parseElems fuel (skipWs t) with
        | some (vs, t2) => some (v :: vs, t2)
        | none => none
      | ']' :: t => some ([v], t)
      | _ => none

/-- Comma-separated `"key": value` members up to the closing brace. -/
def parseMembers : Nat → List Char → Option (List (String × JVal) × List Char)
  | 0, _ => none
  | fuel + 1, cs =>
    match cs with
    | '"' :: rest =>
      match parseStrBody (rest.length + 1) rest with
      | none => none
      | some (k, rest2) =>
        match skipWs rest2 with
        | ':' :: rest3 =>
          match parseVal fuel (skipWs rest3) with
          | none => none
          | some (v, rest4) =>
            match skipWs rest4 with
            | ',' :: t =>
              match skipWs t with
              | '"' :: _ =>
                match parseMembers fuel (skipWs t) with
                | some (ms, t2) => some ((String.mk k, v) :: ms, t2)
                | none => none
              | _ => none
            | '}' :: t => some ([(String.mk k, v)], t)
            | _ => none
        | _ => none
    | _ => none

end

/-- The JSON grammar applied to the already-decoded text: skip
surrounding whitespace, parse exactly one value, reject trailing garbage.
`none` stands for `json.JSONDecodeError`.  (The leading-U+FEFF rejection
of `json.loads` applies only to `str` arguments; the validator passes
bytes, whose BOM handling lives in `decodeJsonBytes`, and a U+FEFF that
survives decoding is simply not a value start.) -/
def jsonParseText (text : List Char) : Option JVal :=
  match parseVal (2 * text.length + 8) (skipWs text) with
  | some (v, rest) => if skipWs rest = [] then some v else none
  | none => none

/-- Outcome of decoding one token segment, classified by the exception
behaviour of the Python code: `caught` is an exception the validator's
inner `except (binascii.Error, json.JSONDecodeError)` clause handles,
`uncaught` is one that falls through to the generic outer handler
(`ValueError` from non-ASCII input to `b64decode`, `UnicodeDecodeError`
from bytes the detected encoding cannot decode). -/
inductive SegOut where
  | caught
  | uncaught
  | ok (v : JVal)

def segIsOk : SegOut → Bool
  | .ok _ => true
  | _ => false

/-- Decode one JWT segment the way lines 302-314 of the source do: pad
with `=` to a multiple of 4, `base64.urlsafe_b64decode`, then
`json.loads` on the resulting bytes (encoding detection, codec decode,
then the JSON grammar). -/
def segDecode (seg : String) : SegOut :=
  let padded := seg.data ++
    (if seg.data.length % 4 == 0 then [] else List.replicate (4 - seg.data.length % 4) '=')
  if !(padded.all (fun c => c.toNat < 128)) then .uncaught
  else
    let translated := padded.map (fun c => if c == '-' then '+' else if c == '_' then '/' else c)
    match a2bBase64 translated with
    | none => .caught
    | some bytes =>
      match decodeJsonBytes bytes with
      | none => .uncaught
      | some text =>
        match jsonParseText text with
        | none => .caught
        | some v => .ok v

/-- Last binding of `k` in a member list (later JSON keys overwrite
earlier ones in the Python dict). -/
def objGet (ms : List (String × JVal)) (k : String) : Option JVal :=
  ms.foldl (fun acc kv => if kv.1 = k then some kv.2 else acc) none

/-- Whether `payload_json.get('sub', 'unknown')[:20]` succeeds: the
default `'unknown'` and string or array values slice, anything else
raises `TypeError` (uncaught). -/
def subOkB (ms : List (String × JVal)) : Bool :=
  match objGet ms "sub" with
  | none => true
  | some (.jstr _) => true
  | some (.jarr _) => true
  | some _ => false

/-- Whether the decoded payload survives the logging line
`payload_json.get('iss', ...)` / `.get('sub', ...)[:20]` (source line
316): it must be a JSON object (else `AttributeError`) with a sliceable
`sub` (else `TypeError`); both exceptions reach the outer handler. -/
def payloadAccepted : SegOut → Bool
  | .ok (.jobj ms) => subOkB ms
  | _ => false

/-- `validate_and_truncate_jwt` (source lines 283-332).  The third tuple
component embeds `str(e)` in Python; it is modelled by the fixed
descriptive prefix, which no claim inspects. -/
def validate_and_truncate_jwt (token : String) : Bool × String × String :=
  if token = "" ∨ token = "N/A" then (true, "N/A", "")
  else
    match splitCharS '.' token with
    | [h, p, _sig] =>
      match segDecode h with
      | .caught => (false, takeS 10 token ++ "...[INVALID]", "Failed to decode JWT token")
      | .uncaught => (false, takeS 10 token ++ "...[ERROR]", "Error validating token")
      | .ok _ =>
        match segDecode p with
        | .caught => (false, takeS 10 token ++ "...[INVALID]", "Failed to decode JWT token")
        | .uncaught => (false, takeS 10 token ++ "...[ERROR]", "Error validating token")
        | .ok pv =>
          match pv with
          | .jobj ms =>
            if subOkB ms then
              (true,
               if token.length > 30 then takeS 10 token ++ "..." ++ lastS 10 token else token,
               "")
            else (false, takeS 10 token ++ "...[ERROR]", "Error validating token")
          | _ => (false, takeS 10 token ++ "...[ERROR]", "Error validating token")
    | _ => (false, takeS 10 token ++ "...[INVALID]",
            "Invalid JWT structure: token must have 3 parts (header.payload.signature)")

/-- Whether a segment decodes all the way to a JSON object (key/value
text in the strictest sense). -/
def segIsObj : SegOut → Bool
  | .ok (.jobj _) => true
  | _ => false

/-- C3 counterexample: the token `_w.MTIz.x` has three dot-separated
segments, but its first segment decodes (after padding) to the byte 0xFF,
which is not valid structured text, so the claim places it in the failing
class and predicts the display `first10...[INVALID]`; the code instead
reaches the generic handler (the `UnicodeDecodeError` is not in the inner
`except` tuple) and produces `first10...[ERROR]`. -/
theorem c3_counterexample_error_display :
    splitCharS '.' "_w.MTIz.x" = ["_w", "MTIz", "x"]
    ∧ segIsOk (segDecode "_w") = false
    ∧ (validate_and_truncate_jwt "_w.MTIz.x").1 = false
    ∧ (validate_and_truncate_jwt "_w.MTIz.x").2.1 = "_w.MTIz.x...[ERROR]"
    ∧ (validate_and_truncate_jwt "_w.MTIz.x").2.1 ≠ takeS 10 "_w.MTIz.x" ++ "...[INVALID]" := by
  refine ⟨by decide, by decide, by decide, by decide, by decide⟩

/-- C3 (amended): every structurally failing non-empty, non-`N/A` token
yields `is_valid = false`; the display form is the first 10 characters
followed by `...[INVALID]` exactly when the failure is a wrong segment
count, a base64 decoding error or malformed JSON text (the exceptions the
inner handler catches), and the first 10 characters followed by
`...[ERROR]` when the failure escapes to the generic handler (non-ASCII
segment, bytes the detected encoding cannot decode, or a decoded payload
that is not a JSON object with a sliceable `sub`). -/
theorem c3_failing_token_display (token : String)
    (hne : token ≠ "") (hna : token ≠ "N/A") :
    ((splitCharS '.' token).length ≠ 3 →
      (validate_and_truncate_jwt token).1 = false
      ∧ (validate_and_truncate_jwt token).2.1 = takeS 10 token ++ "...[INVALID]")
    ∧ (∀ h p s, splitCharS '.' token = [h, p, s] → segDecode h = .caught →
      (validate_and_truncate_jwt token).1 = false
      ∧ (validate_and_truncate_jwt token).2.1 = takeS 10 token ++ "...[INVALID]")
    ∧ (∀ h p s, splitCharS '.' token = [h, p, s] → segDecode h = .uncaught →
      (validate_and_truncate_jwt token).1 = false
      ∧ (validate_and_truncate_jwt token).2.1 = takeS 10 token ++ "...[ERROR]")
    ∧ (∀ h p s, splitCharS '.' token = [h, p, s] → segIsOk (segDecode h) = true →
      segDecode p = .caught →
      (validate_and_truncate_jwt token).1 = false
      ∧ (validate_and_truncate_jwt token).2.1 = takeS 10 token ++ "...[INVALID]")
    ∧ (∀ h p s, splitCharS '.' token = [h, p, s] → segIsOk (segDecode h) = true →
      segDecode p = .uncaught →
      (validate_and_truncate_jwt token).1 = false
      ∧ (validate_and_truncate_jwt token).2.1 = takeS 10 token ++ "...[ERROR]")
    ∧ (∀ h p s, splitCharS '.' token = [h, p, s] → segIsOk (segDecode h) = true →
      segIsOk (segDecode p) = true → payloadAccepted (segDecode p) = false →
      (validate_and_truncate_jwt token).1 = false
      ∧ (validate_and_truncate_jwt token).2.1 = takeS 10 token ++ "...[ERROR]") := by
  have hcond : ¬(token = "" ∨ token = "N/A") := by
    rintro (h | h)
    · exact hne h
    · exact hna h
  refine ⟨?_, ?_, ?_, ?_, ?_, ?_⟩
  · intro hlen
    unfold validate_and_truncate_jwt
    rw [if_neg hcond]
    rcases hsp : splitCharS '.' token with _ | ⟨a, _ | ⟨b, _ | ⟨c, _ | ⟨d, t⟩⟩⟩⟩
    · exact ⟨rfl, rfl⟩
    · exact ⟨rfl, rfl⟩
    · exact ⟨rfl, rfl⟩
    · rw [hsp] at hlen; simp at hlen
    · exact ⟨rfl, rfl⟩
  · intro h p s hsp hdec
    unfold validate_and_truncate_jwt
    rw [if_neg hcond, hsp]
    dsimp only
    rw [hdec]
    exact ⟨rfl, rfl⟩
  · intro h p s hsp hdec
    unfold validate_and_truncate_jwt
    rw [if_neg hcond, hsp]
    dsimp only
    rw [hdec]
    exact ⟨rfl, rfl⟩
  · intro h p s hsp hok hdec
    unfold validate_and_truncate_jwt
    rw [if_neg hcond, hsp]
    dsimp only
    rcases hd : segDecode h with _ | _ | v
    · rw [hd] at hok; simp [segIsOk] at hok
    · rw [hd] at hok; simp [segIsOk] at hok
    · dsimp only
      rw [hdec]
      exact ⟨rfl, rfl⟩
  · intro h p s hsp hok hdec
    unfold validate_and_truncate_jwt
    rw [if_neg hcond, hsp]
    dsimp only
    rcases hd : segDecode h with _ | _ | v
    · rw [hd] at hok; simp [segIsOk] at hok
    · rw [hd] at hok; simp [segIsOk] at hok
    · dsimp only
      rw [hdec]
      exact ⟨rfl, rfl⟩
  · intro h p s hsp hok hpok hpacc
    unfold validate_and_truncate_jwt
    rw [if_neg hcond, hsp]
    dsimp only
    rcases hd : segDecode h with _ | _ | v
    · rw [hd] at hok; simp [segIsOk] at hok
    · rw [hd] at hok; simp [segIsOk] at hok
    · rcases hpd : segDecode p with _ | _ | pv
      · rw [hpd] at hpok; simp [segIsOk] at hpok
      · rw [hpd] at hpok; simp [segIsOk] at hpok
      · rw [hpd] at hpacc
        cases pv with
        | jobj ms =>
          simp only [payloadAccepted] at hpacc
          simp only [hpacc, if_neg]
          exact ⟨rfl, rfl⟩
        | jnull => exact ⟨rfl, rfl⟩
        | jtrue => exact ⟨rfl, rfl⟩
        | jfalse => exact ⟨rfl, rfl⟩
        | jnum lx => exact ⟨rfl, rfl⟩
        | jstr s0 => exact ⟨rfl, rfl⟩
        | jarr es => exact ⟨rfl, rfl⟩

/-- Witness for the amended C3 theorem at the two-segment token `a.b`. -/
theorem c3_failing_token_display_witness :
    (splitCharS '.' "a.b").length ≠ 3
    ∧ (validate_and_truncate_jwt "a.b").1 = false
    ∧ (validate_and_truncate_jwt "a.b").2.1 = takeS 10 "a.b" ++ "...[INVALID]" := by
  refine ⟨by decide, ?_, ?_⟩
  · exact ((c3_failing_token_display "a.b" (by decide) (by decide)).1 (by decide)).1
  · exact ((c3_failing_token_display "a.b" (by decide) (by decide)).1 (by decide)).2

/-- C4 counterexample: in `eyJhIjoxfQ.eyJzdWIiOjV9.sig` both leading
segments decode to JSON objects, so the claim predicts a valid result
with the token displayed unchanged (27 characters, below the truncation
threshold); but the payload's `sub` member is the number 5, the slicing
in the logging line raises `TypeError`, and the code reports the token as
invalid with the `...[ERROR]` display. -/
theorem c4_counterexample_valid_payload_rejected :
    splitCharS '.' "eyJhIjoxfQ.eyJzdWIiOjV9.sig" = ["eyJhIjoxfQ", "eyJzdWIiOjV9", "sig"]
    ∧ segIsObj (segDecode "eyJhIjoxfQ") = true
    ∧ segIsObj (segDecode "eyJzdWIiOjV9") = true
    ∧ (validate_and_truncate_jwt "eyJhIjoxfQ.eyJzdWIiOjV9.sig").1 = false
    ∧ (validate_and_truncate_jwt "eyJhIjoxfQ.eyJzdWIiOjV9.sig").2.1
        = "eyJhIjoxfQ...[ERROR]" := by
  refine ⟨by decide, by decide, by decide, by decide, by decide⟩

/-- C4 (amended): a token with exactly three dot-separated segments whose
first segment decodes (after `=` padding, URL-safe base64, UTF-8, JSON)
and whose second decodes to a JSON object whose `sub` member, when
present, is a string or array, is reported valid with an empty error
message and the display form first10 + `...` + last10 when the token is
longer than 30 characters, else the token unchanged. -/
theorem c4_valid_token_display (token h p s : String)
    (hsp : splitCharS '.' token = [h, p, s])
    (hh : segIsOk (segDecode h) = true)
    (hpa : payloadAccepted (segDecode p) = true) :
    validate_and_truncate_jwt token =
      (true,
       if token.length > 30 then takeS 10 token ++ "..." ++ lastS 10 token else token,
       "") := by
  have hne : token ≠ "" := by
    rintro rfl
    have hl : (splitCharS '.' "").length = 1 := by decide
    rw [hsp] at hl
    simp at hl
  have hna : token ≠ "N/A" := by
    rintro rfl
    have hl : (splitCharS '.' "N/A").length = 1 := by decide
    rw [hsp] at hl
    simp at hl
  have hcond : ¬(token = "" ∨ token = "N/A") := by
    rintro (h | h)
    · exact hne h
    · exact hna h
  unfold validate_and_truncate_jwt
  rw [if_neg hcond, hsp]
  dsimp only
  rcases hd : segDecode h with _ | _ | v
  · rw [hd] at hh; simp [segIsOk] at hh
  · rw [hd] at hh; simp [segIsOk] at hh
  · dsimp only
    rcases hpd : segDecode p with _ | _ | pv
    · rw [hpd] at hpa; simp [payloadAccepted] at hpa
    · rw [hpd] at hpa; simp [payloadAccepted] at hpa
    · rw [hpd] at hpa
      dsimp only
      cases pv with
      | jobj ms => simp only [payloadAccepted] at hpa; simp only [hpa, if_pos]
      | jnull => simp [payloadAccepted] at hpa
      | jtrue => simp [payloadAccepted] at hpa
      | jfalse => simp [payloadAccepted] at hpa
      | jnum lx => simp [payloadAccepted] at hpa
      | jstr s0 => simp [payloadAccepted] at hpa
      | jarr es => simp [payloadAccepted] at hpa

/-- Witness for the amended C4 theorem at a concrete well-formed token
(23 characters, so displayed unchanged). -/
theorem c4_valid_token_display_witness :
    splitCharS '.' "eyJhIjoxfQ.eyJhIjoxfQ.x" = ["eyJhIjoxfQ", "eyJhIjoxfQ", "x"]
    ∧ segIsOk (segDecode "eyJhIjoxfQ") = true
    ∧ payloadAccepted (segDecode "eyJhIjoxfQ") = true
    ∧ validate_and_truncate_jwt "eyJhIjoxfQ.eyJhIjoxfQ.x"
        = (true, "eyJhIjoxfQ.eyJhIjoxfQ.x", "") := by
  refine ⟨by decide, by decide, by decide, ?_⟩
  have h := c4_valid_token_display "eyJhIjoxfQ.eyJhIjoxfQ.x" "eyJhIjoxfQ" "eyJhIjoxfQ" "x"
    (by decide) (by decide) (by decide)
  rw [h]
  decide

/-! Character lookup: the static `CHARACTERS` table (source lines
150-163) and the two lookup tools `get_backstory` / `get_superpower`
(source lines 232-267).  The Python `dict` is an association list with
unique keys; `dict.get` is first-match lookup. -/

/-- First-match association-list lookup; models `dict.get(key)` (Python
dict keys are unique, so first match is the only match). -/
def lookupFirst {β : Type} : List (String × β) → String → Option β
  | [], _ => none
  | (k, v) :: rest, key => if k = key then some v else lookupFirst rest key

structure CharInfo where
  backstory : String
  superpower : String
deriving DecidableEq

/-- The static demo table (source lines 150-163). -/
def CHARACTERS : List (String × CharInfo) :=
  [("Jack", ⟨"Jack is a former spy who now lives as a covert hero.",
             "Invisibility and telepathy"⟩),
   ("Ram", ⟨"Ram is an ancient warrior reborn in the modern world to fight for peace.",
            "Invincible body and immense strength"⟩),
   ("Robert", ⟨"Robert is a scientist who became part machine after a lab accident.",
               "Power fused with advanced technology"⟩)]

/-- `CHARACTERS.get(character, \x7b\x7d).get("backstory", "Character not
found.")` over an arbitrary table (every table entry carries both keys,
as the static table does). -/
def get_backstory_in (table : List (String × CharInfo)) (name : String) : String :=
  match lookupFirst table name with
  | some info => info.backstory
  | none => "Character not found."

/-- The tool `get_backstory` (source line 240). -/
def get_backstory (name : String) : String := get_backstory_in CHARACTERS name

/-- Superpower analogue of `get_backstory_in` (source line 258). -/
def get_superpower_in (table : List (String × CharInfo)) (name : String) : String :=
  match lookupFirst table name with
  | some info => info.superpower
  | none => "Character not found."

/-- The tool `get_superpower` (source line 258). -/
def get_superpower (name : String) : String := get_superpower_in CHARACTERS name

/-- C9: for a name outside the static table both lookups answer with the
literal sentinel `Character not found.`, and a stored text equal to the
sentinel produces the identical observable answer, so the two cases are
indistinguishable to a caller. -/
theorem c9_unknown_character_sentinel :
    (∀ name : String, lookupFirst CHARACTERS name = none →
      get_backstory name = "Character not found."
      ∧ get_superpower name = "Character not found.")
    ∧ (∀ (table : List (String × CharInfo)) (name : String) (info : CharInfo),
      lookupFirst table name = some info → info.backstory = "Character not found." →
      get_backstory_in table name = "Character not found.")
    ∧ (∀ (table : List (String × CharInfo)) (name : String) (info : CharInfo),
      lookupFirst table name = some info → info.superpower = "Character not found." →
      get_superpower_in table name = "Character not found.") := by
  refine ⟨fun name h => ?_, fun table name info h hb => ?_, fun table name info h hs => ?_⟩
  · constructor
    · simp [get_backstory, get_backstory_in, h]
    · simp [get_superpower, get_superpower_in, h]
  · simp [get_backstory_in, h, hb]
  · simp [get_superpower_in, h, hs]

/-- Witness for C9 at the unknown name `Zed` and at a one-entry table
whose stored backstory equals the sentinel. -/
theorem c9_unknown_character_sentinel_witness :
    lookupFirst CHARACTERS "Zed" = none
    ∧ get_backstory "Zed" = "Character not found."
    ∧ get_superpower "Zed" = "Character not found."
    ∧ get_backstory_in [("Mo", ⟨"Character not found.", "p"⟩)] "Mo"
        = "Character not found." := by
  refine ⟨by decide, ?_, ?_, ?_⟩
  · exact (c9_unknown_character_sentinel.1 "Zed" (by decide)).1
  · exact (c9_unknown_character_sentinel.1 "Zed" (by decide)).2
  · exact c9_unknown_character_sentinel.2.1 [("Mo", ⟨"Character not found.", "p"⟩)] "Mo"
      ⟨"Character not found.", "p"⟩ (by decide) (by decide)

/-! Story save/read: `save_story` (source lines 336-398) and `get_story`
(source lines 419-438).  The ambient machinery is passed explicitly: the
header mapping from `get_http_headers`, the context's session and request
ids, the wall-clock date, the working directory (for `os.path.abspath`)
and the file system as an association list from filename to content.  A
successful write prepends the pair, which shadows any earlier file of the
same name under first-match lookup (Python's `open(..., "w")` overwrite).
The I/O-exception branches of the Python code (lines 395-398, 435-438)
are not modelled: the explicit file system cannot fail. -/

structure Date where
  month : Nat
  day : Nat
  year : Nat

/-- English month name used by `strftime("%B ...")`. -/
def monthName : Nat → String
  | 1 => "January"
  | 2 => "February"
  | 3 => "March"
  | 4 => "April"
  | 5 => "May"
  | 6 => "June"
  | 7 => "July"
  | 8 => "August"
  | 9 => "September"
  | 10 => "October"
  | 11 => "November"
  | 12 => "December"
  | _ => ""

/-- Zero-padded two-digit day of `strftime("%d")`. -/
def pad2 (n : Nat) : String := if n < 10 then "0" ++ Nat.repr n else Nat.repr n

/-- `get_current_date` (source lines 270-271): `strftime("%B %d, %Y")`. -/
def get_current_date (now : Date) : String :=
  monthName now.month ++ " " ++ pad2 now.day ++ ", " ++ Nat.repr now.year

/-- `headers.get(key, default)`. -/
def headerGet (hs : List (String × String)) (k d : String) : String :=
  match lookupFirst hs k with
  | some v => v
  | none => d

/-- The header line value `ctx.session_id or 'stateless'`: Python's `or`
falls back on an empty (falsy) string as well as on `None`. -/
def sessionDisplay (sid : Option String) : String :=
  match sid with
  | some s => if s = "" then "stateless" else s
  | none => "stateless"

/-- `save_story` (source lines 336-398), returning the result string and
the updated file system. -/
def save_story (title content : String) (headers : List (String × String))
    (session_id : Option String) (request_id : String) (now : Date) (cwd : String)
    (fs : List (String × String)) : String × List (String × String) :=
  let filename := sanitize_filename title
  let date_created := get_current_date now
  let conversation_id := headerGet headers "x-conversation-id" "N/A"
  let session_id_header := headerGet headers "x-session-id" "N/A"
  let atmosphere_token := headerGet headers "x-atmosphere-token" "N/A"
  if atmosphere_token = "N/A" then
    ("Error: X-Atmosphere-Token header is required but was not found in the request. Story was not saved.",
     fs)
  else
    let v := validate_and_truncate_jwt atmosphere_token
    if v.1 = false then
      ("Error: Incoming atmosphere token was not correct: " ++ v.2.2 ++ ". Story was not saved.",
       fs)
    else
      let doc := "# " ++ title ++ "\n\n"
        ++ "**Date Created:**" ++ " " ++ date_created ++ "\n\n"
        ++ "**Session ID:** " ++ sessionDisplay session_id ++ "\n\n"
        ++ "**Request ID:** " ++ request_id ++ "\n\n"
        ++ content
        ++ "\n\n---\n\n"
        ++ "## Request Metadata\n\n"
        ++ "**Conversation ID:** " ++ conversation_id ++ "\n\n"
        ++ "**X-Session-ID:** " ++ session_id_header ++ "\n\n"
        ++ "**X-Atmosphere-Token:** " ++ v.2.1 ++ "\n"
      ("Story has been saved at: " ++ cwd ++ "/" ++ filename, (filename, doc) :: fs)

/-- `get_story` (source lines 419-438). -/
def get_story (filename : String) (fs : List (String × String)) : String :=
  match lookupFirst fs filename with
  | none => "Story file not found."
  | some content => content

/-- A string assembled as `y ++ z` contains `y`. -/
theorem strHas_of_split2 (y z s : String) (hs : s = y ++ z) : strHas s y = true := by
  subst hs
  exact hasSubList_iff.mpr ⟨[], z.data, by simp [strData_append]⟩

/-- C1: when the request headers carry no `x-atmosphere-token` entry,
`save_story` answers with an error string that names
`X-Atmosphere-Token` and leaves the file system untouched (nothing is
written, even partially: the failing return happens before any file is
opened). -/
theorem c1_missing_token_fails_without_write (title content : String)
    (headers : List (String × String)) (sid : Option String) (rid : String)
    (now : Date) (cwd : String) (fs : List (String × String))
    (h : lookupFirst headers "x-atmosphere-token" = none) :
    strHas (save_story title content headers sid rid now cwd fs).1 "X-Atmosphere-Token" = true
    ∧ (save_story title content headers sid rid now cwd fs).2 = fs := by
  have hred : save_story title content headers sid rid now cwd fs =
      ("Error: X-Atmosphere-Token header is required but was not found in the request. Story was not saved.",
       fs) := by
    simp [save_story, headerGet, h]
  rw [hred]
  refine ⟨?_, rfl⟩
  show strHas "Error: X-Atmosphere-Token header is required but was not found in the request. Story was not saved." "X-Atmosphere-Token" = true
  decide

/-- Witness for C1 with a header map that has no token entry. -/
theorem c1_missing_token_fails_without_write_witness :
    lookupFirst [("user-agent", "curl")] "x-atmosphere-token" = none
    ∧ strHas (save_story "My Great Story" "Hello" [("user-agent", "curl")] none "r1"
        ⟨1, 2, 2025⟩ "/app" []).1 "X-Atmosphere-Token" = true
    ∧ (save_story "My Great Story" "Hello" [("user-agent", "curl")] none "r1"
        ⟨1, 2, 2025⟩ "/app" []).2 = [] := by
  refine ⟨by decide, ?_, ?_⟩
  · exact (c1_missing_token_fails_without_write "My Great Story" "Hello"
      [("user-agent", "curl")] none "r1" ⟨1, 2, 2025⟩ "/app" [] (by decide)).1
  · exact (c1_missing_token_fails_without_write "My Great Story" "Hello"
      [("user-agent", "curl")] none "r1" ⟨1, 2, 2025⟩ "/app" [] (by decide)).2

/-- C10: a header value that is literally `N/A` takes the very same
missing-header failure path as an absent header (`headers.get` returns
the default `N/A` in both cases and the guard compares against that
placeholder), no file is written, the error names the header, and the
validator itself would have accepted both `N/A` and the empty token. -/
theorem c10_na_token_indistinguishable_from_missing (title content : String)
    (h1 h2 : List (String × String)) (sid : Option String) (rid : String)
    (now : Date) (cwd : String) (fs : List (String × String))
    (hna : lookupFirst h1 "x-atmosphere-token" = some "N/A")
    (hmiss : lookupFirst h2 "x-atmosphere-token" = none) :
    save_story title content h1 sid rid now cwd fs
      = save_story title content h2 sid rid now cwd fs
    ∧ (save_story title content h1 sid rid now cwd fs).2 = fs
    ∧ strHas (save_story title content h1 sid rid now cwd fs).1 "X-Atmosphere-Token" = true
    ∧ validate_and_truncate_jwt "N/A" = (true, "N/A", "")
    ∧ validate_and_truncate_jwt "" = (true, "N/A", "") := by
  have e1 : save_story title content h1 sid rid now cwd fs =
      ("Error: X-Atmosphere-Token header is required but was not found in the request. Story was not saved.",
       fs) := by
    simp [save_story, headerGet, hna]
  have e2 : save_story title content h2 sid rid now cwd fs =
      ("Error: X-Atmosphere-Token header is required but was not found in the request. Story was not saved.",
       fs) := by
    simp [save_story, headerGet, hmiss]
  refine ⟨e1.trans e2.symm, by rw [e1], ?_, by decide, by decide⟩
  rw [e1]
  show strHas "Error: X-Atmosphere-Token header is required but was not found in the request. Story was not saved." "X-Atmosphere-Token" = true
  decide

/-- Witness for C10 at a concrete header pair. -/
theorem c10_na_token_indistinguishable_from_missing_witness :
    lookupFirst [("x-atmosphere-token", "N/A")] "x-atmosphere-token" = some "N/A"
    ∧ lookupFirst [("host", "h")] "x-atmosphere-token" = none
    ∧ save_story "T" "C" [("x-atmosphere-token", "N/A")] none "r1" ⟨1, 1, 2025⟩ "/app" []
        = save_story "T" "C" [("host", "h")] none "r1" ⟨1, 1, 2025⟩ "/app" []
    ∧ (save_story "T" "C" [("x-atmosphere-token", "N/A")] none "r1" ⟨1, 1, 2025⟩ "/app" []).2 = [] := by
  refine ⟨by decide, by decide, ?_, ?_⟩
  · exact (c10_na_token_indistinguishable_from_missing "T" "C"
      [("x-atmosphere-token", "N/A")] [("host", "h")] none "r1" ⟨1, 1, 2025⟩ "/app" []
      (by decide) (by decide)).1
  · exact (c10_na_token_indistinguishable_from_missing "T" "C"
      [("x-atmosphere-token", "N/A")] [("host", "h")] none "r1" ⟨1, 1, 2025⟩ "/app" []
      (by decide) (by decide)).2.1

/-- C5 counterexample: a successful save of title `T`, content `C`; the
stored body does not continue with the raw content right after the date's
blank line — `**Session ID:**` and `**Request ID:**` lines sit between
the date line and the content, so the claimed layout (heading, blank,
date, blank, then immediately the content) is not a prefix of the actual
document. -/
theorem c5_counterexample_session_request_lines :
    lookupFirst (save_story "T" "C" [("x-atmosphere-token", "")] none "r1"
        ⟨1, 1, 2025⟩ "/app" []).2 "t.md"
      = some ("# T\n\n**Date Created:** January 01, 2025\n\n**Session ID:** stateless\n\n**Request ID:** r1\n\nC\n\n---\n\n## Request Metadata\n\n**Conversation ID:** N/A\n\n**X-Session-ID:** N/A\n\n**X-Atmosphere-Token:** N/A\n")
    ∧ isPreOf ("# T\n\n**Date Created:** January 01, 2025\n\nC").data
        ("# T\n\n**Date Created:** January 01, 2025\n\n**Session ID:** stateless\n\n**Request ID:** r1\n\nC\n\n---\n\n## Request Metadata\n\n**Conversation ID:** N/A\n\n**X-Session-ID:** N/A\n\n**X-Atmosphere-Token:** N/A\n").data
      = false := by
  refine ⟨by decide, by decide⟩

/-- C5 (amended): on a successful save the document written is, in
order: `# title`, blank line, `**Date Created:** Month DD, YYYY`, blank
line, a `**Session ID:**` line, blank line, a `**Request ID:**` line,
blank line, the raw content, and then the metadata footer (rule, heading,
conversation id, `X-Session-ID`, truncated token). -/
theorem c5_saved_document_layout (title content : String)
    (headers : List (String × String)) (sid : Option String) (rid : String)
    (now : Date) (cwd : String) (fs : List (String × String)) (t : String)
    (htok : lookupFirst headers "x-atmosphere-token" = some t)
    (hne : t ≠ "N/A")
    (hval : (validate_and_truncate_jwt t).1 = true) :
    lookupFirst (save_story title content headers sid rid now cwd fs).2 (sanitize_filename title)
      = some ("# " ++ title ++ "\n\n"
        ++ "**Date Created:**" ++ " " ++ get_current_date now ++ "\n\n"
        ++ "**Session ID:** " ++ sessionDisplay sid ++ "\n\n"
        ++ "**Request ID:** " ++ rid ++ "\n\n"
        ++ content
        ++ "\n\n---\n\n"
        ++ "## Request Metadata\n\n"
        ++ "**Conversation ID:** " ++ headerGet headers "x-conversation-id" "N/A" ++ "\n\n"
        ++ "**X-Session-ID:** " ++ headerGet headers "x-session-id" "N/A" ++ "\n\n"
        ++ "**X-Atmosphere-Token:** " ++ (validate_and_truncate_jwt t).2.1 ++ "\n") := by
  have htok' : headerGet headers "x-atmosphere-token" "N/A" = t := by
    simp [headerGet, htok]
  simp only [save_story, htok', hval]
  rw [if_neg hne]
  simp [lookupFirst, hval]

/-- Witness for the amended C5 at concrete arguments. -/
theorem c5_saved_document_layout_witness :
    lookupFirst [("x-atmosphere-token", "")] "x-atmosphere-token" = some ""
    ∧ ("" : String) ≠ "N/A"
    ∧ (validate_and_truncate_jwt "").1 = true
    ∧ lookupFirst (save_story "T" "C" [("x-atmosphere-token", "")] none "r1"
        ⟨1, 1, 2025⟩ "/app" []).2 "t.md"
      = some ("# T\n\n**Date Created:** January 01, 2025\n\n**Session ID:** stateless\n\n**Request ID:** r1\n\nC\n\n---\n\n## Request Metadata\n\n**Conversation ID:** N/A\n\n**X-Session-ID:** N/A\n\n**X-Atmosphere-Token:** N/A\n") := by
  refine ⟨by decide, by decide, by decide, ?_⟩
  have h := c5_saved_document_layout "T" "C" [("x-atmosphere-token", "")] none "r1"
    ⟨1, 1, 2025⟩ "/app" [] "" (by decide) (by decide) (by decide)
  have hfn : sanitize_filename "T" = "t.md" := by decide
  rw [hfn] at h
  rw [h]
  decide

/-- C6: saving with a present, structurally valid token and then reading
back the derived filename returns a document that contains the original
content, the `# title` heading and a `**Date Created:**` line. -/
theorem c6_save_then_read_roundtrip (title content : String)
    (headers : List (String × String)) (sid : Option String) (rid : String)
    (now : Date) (cwd : String) (fs : List (String × String)) (t : String)
    (htok : lookupFirst headers "x-atmosphere-token" = some t)
    (hne : t ≠ "N/A")
    (hval : (validate_and_truncate_jwt t).1 = true) :
    strHas (get_story (sanitize_filename title)
        (save_story title content headers sid rid now cwd fs).2) content = true
    ∧ strHas (get_story (sanitize_filename title)
        (save_story title content headers sid rid now cwd fs).2) ("# " ++ title) = true
    ∧ strHas (get_story (sanitize_filename title)
        (save_story title content headers sid rid now cwd fs).2) "**Date Created:**" = true := by
  have htok' : headerGet headers "x-atmosphere-token" "N/A" = t := by
    simp [headerGet, htok]
  have hdoc : get_story (sanitize_filename title)
      (save_story title content headers sid rid now cwd fs).2
      = "# " ++ title ++ "\n\n"
        ++ "**Date Created:**" ++ " " ++ get_current_date now ++ "\n\n"
        ++ "**Session ID:** " ++ sessionDisplay sid ++ "\n\n"
        ++ "**Request ID:** " ++ rid ++ "\n\n"
        ++ content
        ++ "\n\n---\n\n"
        ++ "## Request Metadata\n\n"
        ++ "**Conversation ID:** " ++ headerGet headers "x-conversation-id" "N/A" ++ "\n\n"
        ++ "**X-Session-ID:** " ++ headerGet headers "x-session-id" "N/A" ++ "\n\n"
        ++ "**X-Atmosphere-Token:** " ++ (validate_and_truncate_jwt t).2.1 ++ "\n" := by
    simp only [save_story, htok', hval]
    rw [if_neg hne]
    simp [get_story, lookupFirst, hval]
  rw [hdoc]
  refine ⟨?_, ?_, ?_⟩
  · apply strHas_of_parts
      ("# " ++ title ++ "\n\n" ++ "**Date Created:**" ++ " " ++ get_current_date now ++ "\n\n"
        ++ "**Session ID:** " ++ sessionDisplay sid ++ "\n\n"
        ++ "**Request ID:** " ++ rid ++ "\n\n")
      content
      ("\n\n---\n\n" ++ "## Request Metadata\n\n"
        ++ "**Conversation ID:** " ++ headerGet headers "x-conversation-id" "N/A" ++ "\n\n"
        ++ "**X-Session-ID:** " ++ headerGet headers "x-session-id" "N/A" ++ "\n\n"
        ++ "**X-Atmosphere-Token:** " ++ (validate_and_truncate_jwt t).2.1 ++ "\n")
    apply strExt
    simp [strData_append, List.append_assoc]
  · apply strHas_of_split2 ("# " ++ title)
      ("\n\n" ++ "**Date Created:**" ++ " " ++ get_current_date now ++ "\n\n"
        ++ "**Session ID:** " ++ sessionDisplay sid ++ "\n\n"
        ++ "**Request ID:** " ++ rid ++ "\n\n"
        ++ content
        ++ "\n\n---\n\n" ++ "## Request Metadata\n\n"
        ++ "**Conversation ID:** " ++ headerGet headers "x-conversation-id" "N/A" ++ "\n\n"
        ++ "**X-Session-ID:** " ++ headerGet headers "x-session-id" "N/A" ++ "\n\n"
        ++ "**X-Atmosphere-Token:** " ++ (validate_and_truncate_jwt t).2.1 ++ "\n")
    apply strExt
    simp [strData_append, List.append_assoc]
  · apply strHas_of_parts ("# " ++ title ++ "\n\n") "**Date Created:**"
      (" " ++ get_current_date now ++ "\n\n"
        ++ "**Session ID:** " ++ sessionDisplay sid ++ "\n\n"
        ++ "**Request ID:** " ++ rid ++ "\n\n"
        ++ content
        ++ "\n\n---\n\n" ++ "## Request Metadata\n\n"
        ++ "**Conversation ID:** " ++ headerGet headers "x-conversation-id" "N/A" ++ "\n\n"
        ++ "**X-Session-ID:** " ++ headerGet headers "x-session-id" "N/A" ++ "\n\n"
        ++ "**X-Atmosphere-Token:** " ++ (validate_and_truncate_jwt t).2.1 ++ "\n")
    apply strExt
    simp [strData_append, List.append_assoc]

/-- Witness for C6 at concrete arguments (token `eyJhIjoxfQ.eyJhIjoxfQ.x`
is structurally valid). -/
theorem c6_save_then_read_roundtrip_witness :
    lookupFirst [("x-atmosphere-token", "eyJhIjoxfQ.eyJhIjoxfQ.x")] "x-atmosphere-token"
      = some "eyJhIjoxfQ.eyJhIjoxfQ.x"
    ∧ (validate_and_truncate_jwt "eyJhIjoxfQ.eyJhIjoxfQ.x").1 = true
    ∧ strHas (get_story (sanitize_filename "My Story")
        (save_story "My Story" "Once upon a time"
          [("x-atmosphere-token", "eyJhIjoxfQ.eyJhIjoxfQ.x")] none "r1"
          ⟨1, 1, 2025⟩ "/app" []).2) "Once upon a time" = true
    ∧ strHas (get_story (sanitize_filename "My Story")
        (save_story "My Story" "Once upon a time"
          [("x-atmosphere-token", "eyJhIjoxfQ.eyJhIjoxfQ.x")] none "r1"
          ⟨1, 1, 2025⟩ "/app" []).2) ("# " ++ "My Story") = true
    ∧ strHas (get_story (sanitize_filename "My Story")
        (save_story "My Story" "Once upon a time"
          [("x-atmosphere-token", "eyJhIjoxfQ.eyJhIjoxfQ.x")] none "r1"
          ⟨1, 1, 2025⟩ "/app" []).2) "**Date Created:**" = true := by
  refine ⟨by decide, by decide, ?_, ?_, ?_⟩
  · exact (c6_save_then_read_roundtrip "My Story" "Once upon a time"
      [("x-atmosphere-token", "eyJhIjoxfQ.eyJhIjoxfQ.x")] none "r1" ⟨1, 1, 2025⟩ "/app" []
      "eyJhIjoxfQ.eyJhIjoxfQ.x" (by decide) (by decide) (by decide)).1
  · exact (c6_save_then_read_roundtrip "My Story" "Once upon a time"
      [("x-atmosphere-token", "eyJhIjoxfQ.eyJhIjoxfQ.x")] none "r1" ⟨1, 1, 2025⟩ "/app" []
      "eyJhIjoxfQ.eyJhIjoxfQ.x" (by decide) (by decide) (by decide)).2.1
  · exact (c6_save_then_read_roundtrip "My Story" "Once upon a time"
      [("x-atmosphere-token", "eyJhIjoxfQ.eyJhIjoxfQ.x")] none "r1" ⟨1, 1, 2025⟩ "/app" []
      "eyJhIjoxfQ.eyJhIjoxfQ.x" (by decide) (by decide) (by decide)).2.2

/-! User-Agent classifier: `parse_user_agent_detailed` (source lines
516-657).  The function body is a sequence of keyword tests over the
lowercased input — a bot pass, an OS pass and a browser pass over one
mutable dict; it is modelled as three record-updating passes.  The
`re.search` version extractions are modelled by leftmost-match scanners
for their concrete patterns (a literal followed by a nonempty run of
digit/dot or digit/underscore characters). -/

structure ParsedUA where
  browser : String
  browser_version : String
  os : String
  os_version : String
  platform : String
  device_type : String
  is_mobile : Bool
  is_bot : Bool
  engine : String
deriving DecidableEq

/-- The initial dict of `parse_user_agent_detailed` (source lines
518-528). -/
def defaultParsed : ParsedUA :=
  { browser := "Unknown", browser_version := "Unknown", os := "Unknown",
    os_version := "Unknown", platform := "Unknown", device_type := "Desktop",
    is_mobile := false, is_bot := false, engine := "Unknown" }

/-- Characters matched by `[\d\.]`. -/
def isVerDot (c : Char) : Bool := c.isDigit || c == '.'

/-- Characters matched by `[\d_]`. -/
def isVerUnd (c : Char) : Bool := c.isDigit || c == '_'

/-- Match `lit` at the head of `s` followed by a nonempty run of `ok`
characters; the captured group of `re.search(lit ++ "([ok]+)")` at this
position. -/
def tryLitRun (lit : List Char) (ok : Char → Bool) (s : List Char) : Option (List Char) :=
  if isPreOf lit s then
    let run := (s.drop lit.length).takeWhile ok
    if run.isEmpty then none else some run
  else none

/-- Leftmost match: scan positions left to right with a position matcher
(the semantics of `re.search`). -/
def searchScan (tryf : List Char → Option (List Char)) : List Char → Option (List Char)
  | [] => none
  | c :: rest =>
    match tryf (c :: rest) with
    | some r => some r
    | none => searchScan tryf rest

/-- `re.search(lit ++ "([ok]+)", s)`, returning the captured group. -/
def searchLitRun (lit : List Char) (ok : Char → Bool) (s : List Char) : Option (List Char) :=
  searchScan (tryLitRun lit ok) s

/-- Position matcher for `edg?/?([\d\.]+)`: the optional `g` and `/` can
be folded left to right because a leftover `g` or `/` can never satisfy
the following character class, so no backtracking alternative succeeds
where this fails. -/
def tryEdgeAt (s : List Char) : Option (List Char) :=
  match s with
  | 'e' :: 'd' :: rest =>
    let rest1 := match rest with
      | 'g' :: t => t
      | _ => rest
    let rest2 := match rest1 with
      | '/' :: t => t
      | _ => rest1
    let run := rest2.takeWhile isVerDot
    if run.isEmpty then none else some run
  | _ => none

/-- Position matcher for `(?:opera|opr)/([\d\.]+)` (the two alternatives
differ at their third character, so they are mutually exclusive). -/
def tryOperaAt (s : List Char) : Option (List Char) :=
  match tryLitRun ("opera/".data) isVerDot s with
  | some r => some r
  | none => tryLitRun ("opr/".data) isVerDot s

/-- The bot keyword test of source line 537. -/
def isBotUA (l : String) : Bool :=
  strHas l "bot" || strHas l "crawler" || strHas l "spider" || strHas l "scraper" ||
  strHas l "curl" || strHas l "wget" || strHas l "python" || strHas l "postman"

/-- The nested bot browser table (source lines 541-555); `b0` is the
browser value left untouched when no nested keyword matches. -/
def botBrowserAssign (l : String) (b0 : String) : String :=
  if strHas l "curl" then "cURL"
  else if strHas l "postman" then "Postman"
  else if strHas l "python" then
    (if strHas l "requests" then "Python Requests"
     else if strHas l "httpx" then "Python HTTPX"
     else "Python HTTP Client")
  else if strHas l "googlebot" then "Googlebot"
  else if strHas l "bingbot" then "Bingbot"
  else b0

/-- Bot detection (source lines 535-555). -/
def botPass (l : String) (p : ParsedUA) : ParsedUA :=
  if isBotUA l then
    { p with
      is_bot := true,
      device_type := "Bot/Tool",
      browser := botBrowserAssign l p.browser }
  else p

/-- Version via `re.search(r'mac os x ([\d_]+)')` with `_` turned into
`.` (source lines 573-576). -/
def macVersionOf (l : String) (dflt : String) : String :=
  match searchLitRun ("mac os x ".data) isVerUnd l.data with
  | some v => String.mk (v.map (fun c => if c == '_' then '.' else c))
  | none => dflt

/-- Version via `re.search(r'android ([\d\.]+)')` (source lines
600-602). -/
def androidVersionOf (l : String) (dflt : String) : String :=
  match searchLitRun ("android ".data) isVerDot l.data with
  | some v => String.mk v
  | none => dflt

/-- Version via `re.search(r'os ([\d_]+)')` with `_` turned into `.`
(source lines 609-612). -/
def iosVersionOf (l : String) (dflt : String) : String :=
  match searchLitRun ("os ".data) isVerUnd l.data with
  | some v => String.mk (v.map (fun c => if c == '_' then '.' else c))
  | none => dflt

/-- Operating-system detection (source lines 558-612). -/
def osPass (l : String) (p : ParsedUA) : ParsedUA :=
  if strHas l "windows" then
    { p with
      os := "Windows",
      os_version := if strHas l "windows nt 10.0" then "10/11"
        else if strHas l "windows nt 6.3" then "8.1"
        else if strHas l "windows nt 6.1" then "7"
        else p.os_version,
      platform := if strHas l "windows nt 10.0" then "Windows 10/11"
        else if strHas l "windows nt 6.3" then "Windows 8.1"
        else if strHas l "windows nt 6.1" then "Windows 7"
        else p.platform }
  else if strHas l "macintosh" || strHas l "mac os x" then
    { p with
      os := "macOS",
      os_version := macVersionOf l p.os_version,
      platform := if strHas l "intel" then "macOS Intel"
        else if strHas l "arm64" || strHas l "apple silicon" then "macOS Apple Silicon"
        else "macOS" }
  else if strHas l "linux" then
    { p with
      os := "Linux",
      platform := if strHas l "ubuntu" then "Ubuntu Linux"
        else if strHas l "fedora" then "Fedora Linux"
        else if strHas l "debian" then "Debian Linux"
        else if strHas l "centos" then "CentOS Linux"
        else p.platform }
  else if strHas l "android" then
    { p with
      os := "Android",
      is_mobile := true,
      device_type := "Mobile",
      os_version := androidVersionOf l p.os_version }
  else if strHas l "iphone" || strHas l "ipad" then
    { p with
      os := "iOS",
      is_mobile := strHas l "iphone",
      device_type := if strHas l "iphone" then "iPhone" else "iPad",
      os_version := iosVersionOf l p.os_version }
  else p

def edgeVersionOf (l : String) (dflt : String) : String :=
  match searchScan tryEdgeAt l.data with
  | some v => String.mk v
  | none => dflt

def chromeVersionOf (l : String) (dflt : String) : String :=
  match searchLitRun ("chrome/".data) isVerDot l.data with
  | some v => String.mk v
  | none => dflt

def firefoxVersionOf (l : String) (dflt : String) : String :=
  match searchLitRun ("firefox/".data) isVerDot l.data with
  | some v => String.mk v
  | none => dflt

def safariVersionOf (l : String) (dflt : String) : String :=
  match searchLitRun ("version/".data) isVerDot l.data with
  | some v => String.mk v
  | none => dflt

def operaVersionOf (l : String) (dflt : String) : String :=
  match searchScan tryOperaAt l.data with
  | some v => String.mk v
  | none => dflt

/-- Browser detection, skipped when the bot pass fired (source lines
614-655). -/
def browserPass (l : String) (p : ParsedUA) : ParsedUA :=
  if p.is_bot then p
  else if strHas l "edg/" || strHas l "edge/" then
    { p with
      browser := "Microsoft Edge",
      engine := "Blink",
      browser_version := edgeVersionOf l p.browser_version }
  else if strHas l "chrome/" && !strHas l "edg" then
    { p with
      browser := "Chrome",
      engine := "Blink",
      browser_version := chromeVersionOf l p.browser_version }
  else if strHas l "firefox" then
    { p with
      browser := "Firefox",
      engine := "Gecko",
      browser_version := firefoxVersionOf l p.browser_version }
  else if strHas l "safari" && !strHas l "chrome" then
    { p with
      browser := "Safari",
      engine := "WebKit",
      browser_version := safariVersionOf l p.browser_version }
  else if strHas l "opera" || strHas l "opr/" then
    { p with
      browser := "Opera",
      engine := "Blink",
      browser_version := operaVersionOf l p.browser_version }
  else p

/-- `parse_user_agent_detailed` (source lines 516-657): early return of
the defaults on the empty string, then the three passes over the
lowercased input. -/
def parse_user_agent_detailed (ua : String) : ParsedUA :=
  if ua = "" then defaultParsed
  else
    let l := lowerStr ua
    browserPass l (osPass l (botPass l defaultParsed))

/-- Whether the OS cascade takes its `android` branch. -/
def osBranchAndroid (l : String) : Bool :=
  !strHas l "windows" && !(strHas l "macintosh" || strHas l "mac os x") &&
  !strHas l "linux" && strHas l "android"

/-- Whether the OS cascade takes its `iphone`/`ipad` branch. -/
def osBranchIos (l : String) : Bool :=
  !strHas l "windows" && !(strHas l "macintosh" || strHas l "mac os x") &&
  !strHas l "linux" && !strHas l "android" && (strHas l "iphone" || strHas l "ipad")

/-- C7 counterexample: the user agent `python android` contains the bot
keyword `python`, yet the classifier's final `device_type` is `Mobile`,
not `Bot/Tool` — the OS pass runs after the bot pass and its android
branch overwrites the device type. -/
theorem c7_counterexample_bot_device_overwritten :
    isBotUA (lowerStr "python android") = true
    ∧ (parse_user_agent_detailed "python android").is_bot = true
    ∧ (parse_user_agent_detailed "python android").device_type = "Mobile"
    ∧ (parse_user_agent_detailed "python android").device_type ≠ "Bot/Tool" := by
  refine ⟨by decide, by decide, by decide, by decide⟩

/-- C7 (amended): when a bot keyword is present, the classifier reports
`is_bot = true`, the browser comes only from the nested bot table, the
Edge/Chrome/Firefox/Safari/Opera pass is skipped entirely (browser
version and engine keep their defaults), OS detection still runs exactly
as it would from the defaults, and `device_type` is `Bot/Tool` unless the
OS cascade reaches its android or iphone/ipad branch, which overwrites it
with `Mobile`, `iPhone` or `iPad`. -/
theorem c7_bot_classification (ua : String)
    (h : isBotUA (lowerStr ua) = true) :
    (parse_user_agent_detailed ua).is_bot = true
    ∧ (parse_user_agent_detailed ua).browser = botBrowserAssign (lowerStr ua) "Unknown"
    ∧ (parse_user_agent_detailed ua).browser_version = "Unknown"
    ∧ (parse_user_agent_detailed ua).engine = "Unknown"
    ∧ (parse_user_agent_detailed ua).os = (osPass (lowerStr ua) defaultParsed).os
    ∧ (parse_user_agent_detailed ua).os_version
        = (osPass (lowerStr ua) defaultParsed).os_version
    ∧ (parse_user_agent_detailed ua).platform
        = (osPass (lowerStr ua) defaultParsed).platform
    ∧ (parse_user_agent_detailed ua).device_type
        = (if osBranchAndroid (lowerStr ua) then "Mobile"
           else if osBranchIos (lowerStr ua) then
             (if strHas (lowerStr ua) "iphone" then "iPhone" else "iPad")
           else "Bot/Tool") := by
  have hua : ua ≠ "" := by
    intro he
    rw [he] at h
    exact absurd h (by decide)
  cases hw : strHas (lowerStr ua) "windows" with
  | true =>
    simp [parse_user_agent_detailed, hua, botPass, osPass, browserPass,
          osBranchAndroid, osBranchIos, h, hw, defaultParsed]
  | false =>
    cases hm : (strHas (lowerStr ua) "macintosh" || strHas (lowerStr ua) "mac os x") with
    | true =>
      simp [parse_user_agent_detailed, hua, botPass, osPass, browserPass,
            osBranchAndroid, osBranchIos, h, hw, hm, defaultParsed]
    | false =>
      cases hlx : strHas (lowerStr ua) "linux" with
      | true =>
        simp [parse_user_agent_detailed, hua, botPass, osPass, browserPass,
              osBranchAndroid, osBranchIos, h, hw, hm, hlx, defaultParsed]
      | false =>
        cases ha : strHas (lowerStr ua) "android" with
        | true =>
          simp [parse_user_agent_detailed, hua, botPass, osPass, browserPass,
                osBranchAndroid, osBranchIos, h, hw, hm, hlx, ha, defaultParsed]
        | false =>
          cases hi : (strHas (lowerStr ua) "iphone" || strHas (lowerStr ua) "ipad") with
          | true =>
            simp [parse_user_agent_detailed, hua, botPass, osPass, browserPass,
                  osBranchAndroid, osBranchIos, h, hw, hm, hlx, ha, hi, defaultParsed]
          | false =>
            simp [parse_user_agent_detailed, hua, botPass, osPass, browserPass,
                  osBranchAndroid, osBranchIos, h, hw, hm, hlx, ha, hi, defaultParsed]

/-- Witness for the amended C7 at `curl/8.1.2`. -/
theorem c7_bot_classification_witness :
    isBotUA (lowerStr "curl/8.1.2") = true
    ∧ (parse_user_agent_detailed "curl/8.1.2").is_bot = true
    ∧ (parse_user_agent_detailed "curl/8.1.2").browser
        = botBrowserAssign (lowerStr "curl/8.1.2") "Unknown"
    ∧ (parse_user_agent_detailed "curl/8.1.2").device_type = "Bot/Tool" := by
  refine ⟨by decide, ?_, ?_, ?_⟩
  · exact (c7_bot_classification "curl/8.1.2" (by decide)).1
  · exact (c7_bot_classification "curl/8.1.2" (by decide)).2.1
  · have hd := (c7_bot_classification "curl/8.1.2" (by decide)).2.2.2.2.2.2.2
    rw [hd]
    decide

/-- Every keyword any branch of the classifier tests positively for. -/
def uaKeywords : List String :=
  ["bot", "crawler", "spider", "scraper", "curl", "wget", "python", "postman",
   "windows", "macintosh", "mac os x", "linux", "android", "iphone", "ipad",
   "edg/", "edge/", "chrome/", "firefox", "safari", "opera", "opr/"]

/-- No recognized keyword occurs in the lowercased input. -/
def keywordFree (ua : String) : Bool :=
  uaKeywords.all (fun k => !(strHas (lowerStr ua) k))

/-- C8: the classifier is a total function (it is defined for every
string and, being a plain Lean function, can not raise), and on any input
free of all recognized keywords — the empty string included — every field
keeps its documented default. -/
theorem c8_total_defaults (ua : String) (h : keywordFree ua = true) :
    parse_user_agent_detailed ua = defaultParsed := by
  simp only [keywordFree, uaKeywords, List.all_cons, List.all_nil,
    Bool.and_eq_true, Bool.not_eq_true'] at h
  obtain ⟨h1, h2, h3, h4, h5, h6, h7, h8, h9, h10, h11, h12, h13, h14, h15,
    h16, h17, h18, h19, h20, h21, h22, -⟩ := h
  by_cases hua : ua = ""
  · simp [parse_user_agent_detailed, hua]
  · simp [parse_user_agent_detailed, hua, botPass, isBotUA, osPass, browserPass,
          defaultParsed, h1, h2, h3, h4, h5, h6, h7, h8, h9, h10, h11, h12, h13,
          h14, h15, h16, h17, h18, h19, h20, h21, h22]

/-- Witness for C8 at a keyword-free input. -/
theorem c8_total_defaults_witness :
    keywordFree "Hello there" = true
    ∧ parse_user_agent_detailed "Hello there" = defaultParsed := by
  exact ⟨by decide, c8_total_defaults "Hello there" (by decide)⟩

end StoryServer
